import Mathlib

/-!
Shallow embedding of `src/magic_uv/op/texture_wrap.py` (Magic UV "Texture
Wrap" feature of the Copy-And-Paste-UV Blender add-on).

The file models the two operators `MUV_OT_TextureWrap_Refer.execute` and
`MUV_OT_TextureWrap_Set.execute` over an explicit mesh state.  Machine
floats are modelled as real numbers; `mathutils` vectors become `Vec3` /
`Vec2` records.  An operator that reports a WARNING message and returns
CANCELLED is modelled as returning `Except.error w` for the corresponding
`Warn` constructor (`warnMsg` maps constructors back to the exact message
strings); FINISHED is `Except.ok ()`.
-/

namespace TextureWrap

/-- A 3-D vector (a `mathutils.Vector` of size 3), coordinates as reals. -/
structure Vec3 where
  x : ℝ
  y : ℝ
  z : ℝ

/-- A 2-D vector (a UV coordinate), coordinates as reals. -/
structure Vec2 where
  u : ℝ
  v : ℝ

instance : Add Vec3 := ⟨fun a b => ⟨a.x + b.x, a.y + b.y, a.z + b.z⟩⟩

instance : Sub Vec3 := ⟨fun a b => ⟨a.x - b.x, a.y - b.y, a.z - b.z⟩⟩

instance : SMul ℝ Vec3 := ⟨fun r a => ⟨r * a.x, r * a.y, r * a.z⟩⟩

instance : Add Vec2 := ⟨fun a b => ⟨a.u + b.u, a.v + b.v⟩⟩

instance : Sub Vec2 := ⟨fun a b => ⟨a.u - b.u, a.v - b.v⟩⟩

instance : SMul ℝ Vec2 := ⟨fun r a => ⟨r * a.u, r * a.v⟩⟩

/-- Dot product of 3-D vectors (`Vector.dot`). -/
def Vec3.dot (a b : Vec3) : ℝ := a.x * b.x + a.y * b.y + a.z * b.z

/-- Dot product of 2-D vectors. -/
def Vec2.dot (a b : Vec2) : ℝ := a.u * b.u + a.v * b.v

/-- Euclidean norm of a 3-D vector (`Vector.length`). -/
noncomputable def Vec3.length (a : Vec3) : ℝ := Real.sqrt (a.dot a)

/-- Euclidean norm of a 2-D vector. -/
noncomputable def Vec2.length (a : Vec2) : ℝ := Real.sqrt (a.dot a)

/-- `math.copysign(1, x)` over the reals: `-1` for negative `x`, `+1`
otherwise (real numbers have no negative zero). -/
noncomputable def copysign1 (x : ℝ) : ℝ := if x < 0 then -1 else 1

/-- The mathematical sign function used by the formula of the spec in §4.1
step 6: returns `-1`, `0`, or `+1`. -/
noncomputable def signZ (x : ℝ) : ℝ := if x < 0 then -1 else if x = 0 then 0 else 1

/-- Modelled from the spec: `common.diff_point_to_segment` (the module
`magic_uv/common.py` is not under `src/`).  Spec §4.1 step 3: "`X` = the
closest point on line `AB` to `O`; `hdiff = O − X` (perpendicular offset
vector); `vdiff = X − A`".  The function returns the pair
`(O − X, X)`, matching the call sites `ref_hdiff, x = ...` followed by
`ref_vdiff = x - cv0`.  3-D version. -/
noncomputable def diff_point_to_segment3 (a b p : Vec3) : Vec3 × Vec3 :=
  let t := (p - a).dot (b - a) / (b - a).dot (b - a)
  let x := a + t • (b - a)
  (p - x, x)

/-- Modelled from the spec: `common.diff_point_to_segment` applied to 2-D
(UV-space) vectors, spec §4.1 step 5. -/
noncomputable def diff_point_to_segment2 (a b p : Vec2) : Vec2 × Vec2 :=
  let t := (p - a).dot (b - a) / (b - a).dot (b - a)
  let x := a + t • (b - a)
  (p - x, x)

/-- The warnings the two operators can report; `warnMsg` gives the exact
message string passed to `self.report`. -/
inductive Warn where
  | noUVLayer
  | selectOnlyOne
  | selectMoreThanOne
  | sameFace
  | objectMismatch
  | sharedVertexCount
  | unsharedVertex
  | indexError
deriving DecidableEq, Repr

/-- The message string each warning carries (`indexError` models an
uncaught Python `IndexError` from an out-of-range face lookup, which has
no `self.report` message). -/
def warnMsg : Warn → String
  | .noUVLayer => "Object must have more than one UV map"
  | .selectOnlyOne => "Must select only one face"
  | .selectMoreThanOne => "Must select more than one face"
  | .sameFace => "Must select different face"
  | .objectMismatch => "Object must be same"
  | .sharedVertexCount => "2 vertices must be shared among faces"
  | .unsharedVertex => "More than 1 vertex must be unshared"
  | .indexError => "IndexError"

/-- A loop: a face corner, pairing a vertex identity with the per-face UV
stored in the active UV layer. -/
structure Loop where
  vert : Nat
  uv : Vec2

/-- A face: its ordered loops and its selection flag.  The `index` of a
face is its position in the face list of the mesh. -/
structure Face where
  loops : List Loop
  select : Bool

/-- The edit-mesh state visible to the operators: the face list, whether
a UV layer exists (`bm.loops.layers.uv`), and the face part of
`bm.select_history` (positions into `faces`, in selection order). -/
structure BMesh where
  faces : List Face
  has_uv : Bool
  select_history : List Nat

/-- The persisted propagation state `scene.muv_props.texture_wrap`:
`ref_face_index` (initialised to `-1`) and `ref_obj` (`none` models
Python `None`; `some o` an object identity). -/
structure Props where
  ref_face_index : Int
  ref_obj : Option Nat
deriving DecidableEq, Repr

/-- The two scene options read by the Set operator. -/
structure SceneOpts where
  selseq : Bool
  set_and_refer : Bool
deriving DecidableEq, Repr

/-- The record the source builds per shared vertex (lines 184-192):
the vertex, the reference-face loop holding it, and the target-face loop
holding it.  `refLi` / `tgtLi` are the loop positions inside the two
faces. -/
structure CVInfo where
  vert : Nat
  refLi : Nat
  refLoop : Loop
  tgtLi : Nat
  tgtLoop : Loop

/-- Inner loop of the shared-vertex scan (lines 187-192): find the first
loop of the target face holding vertex `v`, with its position. -/
def findLoop : List Loop → Nat → Nat → Option (Nat × Loop)
  | [], _, _ => none
  | dl :: rest, v, j => if dl.vert = v then some (j, dl) else findLoop rest v (j + 1)

/-- Outer loop of the shared-vertex scan (lines 185-192): one `CVInfo`
per reference loop whose vertex also occurs in the target face. -/
def commonVertsAux (tl : List Loop) : List Loop → Nat → List CVInfo
  | [], _ => []
  | sl :: rest, i =>
    match findLoop tl sl.vert 0 with
    | some jd => ⟨sl.vert, i, sl, jd.1, jd.2⟩ :: commonVertsAux tl rest (i + 1)
    | none => commonVertsAux tl rest (i + 1)

/-- `common_verts` of lines 185-192. -/
def commonVerts (rf tf : Face) : List CVInfo := commonVertsAux tf.loops rf.loops 0

/-- The `for ... else` scans of lines 200-207 and 237-244: loops (with
their positions) whose vertex is not among the shared vertices. -/
def otherVertsAux (cvs : List CVInfo) : List Loop → Nat → List (Nat × Loop)
  | [], _ => []
  | l :: rest, i =>
    if cvs.any (fun ci => ci.vert == l.vert) then otherVertsAux cvs rest (i + 1)
    else (i, l) :: otherVertsAux cvs rest (i + 1)

/-- Non-shared loops of a face, with their positions. -/
def otherVerts (loops : List Loop) (cvs : List CVInfo) : List (Nat × Loop) :=
  otherVertsAux cvs loops 0

/-- The reference frame after the degenerate-edge guard: the (possibly
swapped) shared-edge endpoints, their UVs, and the decomposition of the
first non-shared vertex of the reference face. -/
structure RefFrame where
  cv0 : Vec3
  cv1 : Vec3
  cuv0 : Vec2
  cuv1 : Vec2
  hdiff : Vec3
  vdiff : Vec3

/-- Lines 225-231: decompose the reference off-edge vertex against the
shared edge; if either component has zero length, swap `cv0 ↔ cv1` (and
`cuv0 ↔ cuv1`) and recompute. -/
noncomputable def swapGuard (cv0 cv1 : Vec3) (cuv0 cuv1 : Vec2) (ov0 : Vec3) : RefFrame :=
  let hx := diff_point_to_segment3 cv0 cv1 ov0
  let vd := hx.2 - cv0
  if hx.1.length = 0 ∨ vd.length = 0 then
    let hx2 := diff_point_to_segment3 cv1 cv0 ov0
    ⟨cv1, cv0, cuv1, cuv0, hx2.1, hx2.2 - cv1⟩
  else
    ⟨cv0, cv1, cuv0, cuv1, hx.1, vd⟩

/-- Lines 252-266: UV computed for one non-shared target vertex at
position `ov`, given the reference frame data. -/
noncomputable def computeTargetUV (cv0 cv1 : Vec3) (cuv0 : Vec2) (rvd rhd : Vec3)
    (ruvh ruvv : Vec2) (ov : Vec3) : Vec2 :=
  let hx := diff_point_to_segment3 cv0 cv1 ov
  let tgt_hdiff := hx.1
  let tgt_vdiff := hx.2 - cv0
  let fact_v := tgt_vdiff.length / rvd.length
    * copysign1 (tgt_vdiff.dot (cv1 - cv0))
    * copysign1 (rvd.dot (cv1 - cv0))
  let duv_v := fact_v • ruvv
  let fact_h := -tgt_hdiff.length / rhd.length
  let duv_h := fact_h • ruvh
  cuv0 + duv_h + duv_v

/-- Overwrite the UV of the loop at position `i`, keeping its vertex
(the write `loop[uv_layer].uv = ...`). -/
def setUV : List Loop → Nat → Vec2 → List Loop
  | [], _, _ => []
  | l :: ls, 0, uv => ⟨l.vert, uv⟩ :: ls
  | l :: ls, i + 1, uv => l :: setUV ls i uv

/-- Lines 269-271: copy the UV of the reference loop onto each shared target
loop. -/
def applyCommon : List Loop → List CVInfo → List Loop
  | ls, [] => ls
  | ls, ci :: rest => applyCommon (setUV ls ci.tgtLi ci.refLoop.uv) rest

/-- Lines 273-274: write each computed UV onto its non-shared target
loop. -/
def applyTargets : List Loop → List (Nat × Vec2) → List Loop
  | ls, [] => ls
  | ls, t :: rest => applyTargets (setUV ls t.1 t.2) rest

/-- The `for info in tgt_other_verts` loop of lines 251-266: each
non-shared target loop position paired with its computed `target_uv`. -/
noncomputable def targetUVs (verts : Nat → Vec3) (frame : RefFrame)
    (ruvh ruvv : Vec2) (tos : List (Nat × Loop)) : List (Nat × Vec2) :=
  tos.map fun t2 =>
    (t2.1, computeTargetUV frame.cv0 frame.cv1 frame.cuv0 frame.vdiff frame.hdiff
      ruvh ruvv (verts t2.2.vert))

/-- Body of the per-face projection once the two shared vertices are in
hand: lines 199-274 of `MUV_OT_TextureWrap_Set.execute`.  Returns the
new loop list of the target face, or the reported warning. -/
noncomputable def processFace2 (verts : Nat → Vec3) (rf tf : Face) (c0 c1 : CVInfo) :
    Except Warn (List Loop) :=
  match otherVerts rf.loops [c0, c1] with
  | [] => .error .unsharedVertex
  | ro :: _ =>
    let frame := swapGuard (verts c0.vert) (verts c1.vert) c0.refLoop.uv c1.refLoop.uv
      (verts ro.2.vert)
    let p2 := diff_point_to_segment2 frame.cuv0 frame.cuv1 ro.2.uv
    let ref_uv_hdiff := p2.1
    let ref_uv_vdiff := p2.2 - frame.cuv0
    match otherVerts tf.loops [c0, c1] with
    | [] => .error .unsharedVertex
    | to0 :: torest =>
      .ok (applyTargets (applyCommon tf.loops [c0, c1])
        (targetUVs verts frame ref_uv_hdiff ref_uv_vdiff (to0 :: torest)))

/-- One (reference face, target face) projection: lines 184-274.  The
shared-vertex cardinality check, then the projection body. -/
noncomputable def processFace (verts : Nat → Vec3) (rf tf : Face) : Except Warn (List Loop) :=
  match commonVerts rf tf with
  | [c0, c1] => processFace2 verts rf tf c0 c1
  | _ => .error .sharedVertexCount

/-- Python sequence indexing on the face list: non-negative indices from
the front, negative from the back, out-of-range is an error (`none`). -/
def pyGet (faces : List Face) (i : Int) : Option Face :=
  if 0 ≤ i then faces.get? i.toNat
  else if (-i).toNat ≤ faces.length then faces.get? (faces.length - (-i).toNat)
  else none

/-- The `for face in sel_faces` loop of lines 171-281.  State threaded
through: the face list (writes of earlier iterations are committed, line
279 calls `bmesh.update_edit_mesh` per face) and the running reference
index (line 281 makes each processed target the next reference).  The
returned `Int` is the final reference index, which on full success equals
the Python variable `tgt_face_index` after the loop. -/
noncomputable def setLoop (verts : Nat → Vec3) (obj : Nat) (refObj : Option Nat) :
    List Nat → List Face → Int → Except Warn Unit × List Face × Int
  | [], faces, refIdx => (.ok (), faces, refIdx)
  | tgt :: rest, faces, refIdx =>
    if refIdx = Int.ofNat tgt then (.error .sameFace, faces, refIdx)
    else if refObj ≠ some obj then (.error .objectMismatch, faces, refIdx)
    else
      match pyGet faces refIdx, faces.get? tgt with
      | some rf, some tf =>
        match processFace verts rf tf with
        | .error w => (.error w, faces, refIdx)
        | .ok newLoops =>
          setLoop verts obj refObj rest (faces.set tgt ⟨newLoops, tf.select⟩) (Int.ofNat tgt)
      | _, _ => (.error .indexError, faces, refIdx)

/-- Positions of the selected faces, in face-list order
(`[f for f in bm.faces if f.select]`, identified by `f.index`). -/
def selectedIdxsAux : List Face → Nat → List Nat
  | [], _ => []
  | f :: rest, i =>
    if f.select then i :: selectedIdxsAux rest (i + 1) else selectedIdxsAux rest (i + 1)

/-- Positions of the selected faces. -/
def selectedIdxs (faces : List Face) : List Nat := selectedIdxsAux faces 0

/-- Lines 156-168: the target list.  Selection-sequence mode takes the
selected faces of `bm.select_history` in history order and requires the
list non-empty; single mode requires exactly one selected face. -/
def selFacesOf (sc : SceneOpts) (bm : BMesh) : Except Warn (List Nat) :=
  if sc.selseq then
    let sel := bm.select_history.filter fun h =>
      match bm.faces.get? h with
      | some f => f.select
      | none => false
    if sel.isEmpty then .error .selectMoreThanOne else .ok sel
  else
    let sel := selectedIdxs bm.faces
    if sel.length = 1 then .ok sel else .error .selectOnlyOne

/-- The outcome of `MUV_OT_TextureWrap_Set.execute`: the operator result,
the final face list of the mesh, and the final persisted state. -/
structure SetOut where
  res : Except Warn Unit
  faces : List Face
  props : Props

/-- `MUV_OT_TextureWrap_Set.execute` (lines 140-286): UV-layer check,
target-list construction, the projection loop, and the final
`set_and_refer` write of `props.ref_face_index` (lines 283-284), which
only runs when the whole loop finished. -/
noncomputable def setExecute (sc : SceneOpts) (props : Props) (obj : Nat)
    (verts : Nat → Vec3) (bm : BMesh) : SetOut :=
  if bm.has_uv = false then ⟨.error .noUVLayer, bm.faces, props⟩
  else
    match selFacesOf sc bm with
    | .error w => ⟨.error w, bm.faces, props⟩
    | .ok sel =>
      match setLoop verts obj props.ref_obj sel bm.faces props.ref_face_index with
      | (.error w, faces2, _) => ⟨.error w, faces2, props⟩
      | (.ok _, faces2, lastIdx) =>
        if sc.set_and_refer then ⟨.ok (), faces2, ⟨lastIdx, props.ref_obj⟩⟩
        else ⟨.ok (), faces2, props⟩

/-- `MUV_OT_TextureWrap_Refer.execute` (lines 93-115): UV-layer check,
single-selected-face check, then record the face index and object. -/
def refExecute (props : Props) (obj : Nat) (bm : BMesh) : Except Warn Unit × Props :=
  if bm.has_uv = false then (.error .noUVLayer, props)
  else
    match selectedIdxs bm.faces with
    | [i] => (.ok (), ⟨Int.ofNat i, some obj⟩)
    | _ => (.error .selectOnlyOne, props)

/-- Written from the words of the spec (§4.1 step 6), for comparison with the
`computeTargetUV` of the code: the parallel scale factor
`factV = (|tgt_vdiff| / |vdiff|) * sign(tgt_vdiff·(B−A)) * sign(vdiff·(B−A))`
with `sign` returning `-1`, `0`, or `+1`. -/
noncomputable def specFactV (cv0 cv1 rvd tvd : Vec3) : ℝ :=
  tvd.length / rvd.length * signZ (tvd.dot (cv1 - cv0)) * signZ (rvd.dot (cv1 - cv0))

/-- Written from the words of the spec (§4.1 step 6): the perpendicular scale
factor `factH = −(|tgt_hdiff| / |hdiff|)`. -/
noncomputable def specFactH (rhd thd : Vec3) : ℝ := -(thd.length / rhd.length)

/-- Written from the words of the spec (§4.1 step 6): the target UV
`Auv + UVhdiff·factH + UVvdiff·factV` for the non-shared target vertex at
position `ov`. -/
noncomputable def specTargetUV (cv0 cv1 : Vec3) (auv : Vec2) (rvd rhd : Vec3)
    (ruvh ruvv : Vec2) (ov : Vec3) : Vec2 :=
  auv + specFactH rhd (diff_point_to_segment3 cv0 cv1 ov).1 • ruvh
      + specFactV cv0 cv1 rvd ((diff_point_to_segment3 cv0 cv1 ov).2 - cv0) • ruvv

/-! ### Concrete scenario data

The end-to-end scenario of spec §8: a unit reference square with the
identity UV map and, across the shared edge `v0–v1`, a mirrored unit
target square whose UVs start at the origin.  Used to evaluate the
operators at concrete inputs. -/

/-- Vertex positions of the two-square scenario. -/
def exVerts : Nat → Vec3
  | 0 => ⟨0, 0, 0⟩
  | 1 => ⟨1, 0, 0⟩
  | 2 => ⟨1, 1, 0⟩
  | 3 => ⟨0, 1, 0⟩
  | 4 => ⟨1, -1, 0⟩
  | _ => ⟨0, -1, 0⟩

/-- The reference square: verts `0,1,2,3`, UVs the identity unit square. -/
def exRef : Face := ⟨[⟨0, ⟨0, 0⟩⟩, ⟨1, ⟨1, 0⟩⟩, ⟨2, ⟨1, 1⟩⟩, ⟨3, ⟨0, 1⟩⟩], false⟩

/-- The target square: verts `0,1,4,5`, all UVs initially `(0,0)`,
selected. -/
def exTgt : Face := ⟨[⟨0, ⟨0, 0⟩⟩, ⟨1, ⟨0, 0⟩⟩, ⟨4, ⟨0, 0⟩⟩, ⟨5, ⟨0, 0⟩⟩], true⟩

/-- The target square after projection: shared UVs copied, far corners at
`(1,-1)` and `(0,-1)` (the expected result of spec §8). -/
def exTgt2 : Face := ⟨[⟨0, ⟨0, 0⟩⟩, ⟨1, ⟨1, 0⟩⟩, ⟨4, ⟨1, -1⟩⟩, ⟨5, ⟨0, -1⟩⟩], true⟩

/-- Mesh for single-selection mode: only the target face selected. -/
def exBm : BMesh := ⟨[exRef, exTgt], true, []⟩

/-- Mesh for selection-sequence mode whose history names the target face
twice, so the second chain step hits the identical-face check. -/
def exBm2 : BMesh := ⟨[exRef, exTgt], true, [1, 1]⟩

/-- A mesh without a UV layer. -/
def bmNoUV : BMesh := ⟨[exRef, exTgt], false, []⟩

/-- Options: single-selection mode with set-and-refer enabled. -/
def exSc : SceneOpts := ⟨false, true⟩

/-- Options: selection-sequence mode with set-and-refer enabled. -/
def exSc2 : SceneOpts := ⟨true, true⟩

/-- Persisted state: reference face `0` on object `0`. -/
def exProps : Props := ⟨0, some 0⟩

/-- Persisted state captured on another object (`1`), with a reference
index equal to the index of the selected target. -/
def exProps9 : Props := ⟨1, some 1⟩

/-- Persisted state captured on another object (`1`), reference index
distinct from the index of the selected target. -/
def exProps9b : Props := ⟨5, some 1⟩

/-- A reference triangle sharing exactly one vertex (vert `2`) with
`triTgt`. -/
def triRef : Face := ⟨[⟨0, ⟨0, 0⟩⟩, ⟨1, ⟨0, 0⟩⟩, ⟨2, ⟨0, 0⟩⟩], false⟩

/-- A target triangle sharing exactly one vertex (vert `2`) with
`triRef`. -/
def triTgt : Face := ⟨[⟨2, ⟨0, 0⟩⟩, ⟨6, ⟨0, 0⟩⟩, ⟨7, ⟨0, 0⟩⟩], true⟩

/-! ### Helper lemmas -/

@[simp] lemma vec3_sub (a b : Vec3) : a - b = ⟨a.x - b.x, a.y - b.y, a.z - b.z⟩ := rfl

@[simp] lemma vec3_add (a b : Vec3) : a + b = ⟨a.x + b.x, a.y + b.y, a.z + b.z⟩ := rfl

@[simp] lemma vec3_smul (r : ℝ) (a : Vec3) : r • a = ⟨r * a.x, r * a.y, r * a.z⟩ := rfl

@[simp] lemma vec2_sub (a b : Vec2) : a - b = ⟨a.u - b.u, a.v - b.v⟩ := rfl

@[simp] lemma vec2_add (a b : Vec2) : a + b = ⟨a.u + b.u, a.v + b.v⟩ := rfl

@[simp] lemma vec2_smul (r : ℝ) (a : Vec2) : r • a = ⟨r * a.u, r * a.v⟩ := rfl

lemma exCVS : commonVerts exRef exTgt =
    [⟨0, 0, ⟨0, ⟨0, 0⟩⟩, 0, ⟨0, ⟨0, 0⟩⟩⟩, ⟨1, 1, ⟨1, ⟨1, 0⟩⟩, 1, ⟨1, ⟨0, 0⟩⟩⟩] := rfl

lemma exRO : otherVerts exRef.loops
    [⟨0, 0, ⟨0, ⟨0, 0⟩⟩, 0, ⟨0, ⟨0, 0⟩⟩⟩, ⟨1, 1, ⟨1, ⟨1, 0⟩⟩, 1, ⟨1, ⟨0, 0⟩⟩⟩] =
    [(2, ⟨2, ⟨1, 1⟩⟩), (3, ⟨3, ⟨0, 1⟩⟩)] := rfl

lemma dps3Eval1 : diff_point_to_segment3 ⟨0, 0, 0⟩ ⟨1, 0, 0⟩ ⟨1, 1, 0⟩ =
    (⟨0, 1, 0⟩, ⟨1, 0, 0⟩) := by
  simp [diff_point_to_segment3, Vec3.dot]

lemma len3Eval1 : Vec3.length ⟨0, 1, 0⟩ = 1 := by
  simp [Vec3.length, Vec3.dot]

lemma len3Eval2 : Vec3.length ⟨1, 0, 0⟩ = 1 := by
  simp [Vec3.length, Vec3.dot]

lemma swapEval : swapGuard ⟨0, 0, 0⟩ ⟨1, 0, 0⟩ ⟨0, 0⟩ ⟨1, 0⟩ ⟨1, 1, 0⟩ =
    ⟨⟨0, 0, 0⟩, ⟨1, 0, 0⟩, ⟨0, 0⟩, ⟨1, 0⟩, ⟨0, 1, 0⟩, ⟨1, 0, 0⟩⟩ := by
  rw [swapGuard, dps3Eval1]
  norm_num [len3Eval1, len3Eval2]

lemma dps2Eval1 : diff_point_to_segment2 ⟨0, 0⟩ ⟨1, 0⟩ ⟨1, 1⟩ = (⟨0, 1⟩, ⟨1, 0⟩) := by
  simp [diff_point_to_segment2, Vec2.dot]

lemma ctuvEval1 : computeTargetUV ⟨0, 0, 0⟩ ⟨1, 0, 0⟩ ⟨0, 0⟩ ⟨1, 0, 0⟩ ⟨0, 1, 0⟩
    ⟨0, 1⟩ ⟨1, 0⟩ ⟨1, -1, 0⟩ = ⟨1, -1⟩ := by
  rw [computeTargetUV]
  have h1 : diff_point_to_segment3 ⟨0, 0, 0⟩ ⟨1, 0, 0⟩ ⟨1, -1, 0⟩ =
      (⟨0, -1, 0⟩, ⟨1, 0, 0⟩) := by
    simp [diff_point_to_segment3, Vec3.dot]
  rw [h1]
  simp only [copysign1, Vec3.dot, Vec3.length]
  norm_num

lemma ctuvEval2 : computeTargetUV ⟨0, 0, 0⟩ ⟨1, 0, 0⟩ ⟨0, 0⟩ ⟨1, 0, 0⟩ ⟨0, 1, 0⟩
    ⟨0, 1⟩ ⟨1, 0⟩ ⟨0, -1, 0⟩ = ⟨0, -1⟩ := by
  rw [computeTargetUV]
  have h1 : diff_point_to_segment3 ⟨0, 0, 0⟩ ⟨1, 0, 0⟩ ⟨0, -1, 0⟩ =
      (⟨0, -1, 0⟩, ⟨0, 0, 0⟩) := by
    simp [diff_point_to_segment3, Vec3.dot]
  rw [h1]
  simp only [copysign1, Vec3.dot, Vec3.length]
  norm_num

lemma exTO : otherVerts exTgt.loops
    [⟨0, 0, ⟨0, ⟨0, 0⟩⟩, 0, ⟨0, ⟨0, 0⟩⟩⟩, ⟨1, 1, ⟨1, ⟨1, 0⟩⟩, 1, ⟨1, ⟨0, 0⟩⟩⟩] =
    [(2, ⟨4, ⟨0, 0⟩⟩), (3, ⟨5, ⟨0, 0⟩⟩)] := rfl

lemma procEval : processFace exVerts exRef exTgt =
    .ok [⟨0, ⟨0, 0⟩⟩, ⟨1, ⟨1, 0⟩⟩, ⟨4, ⟨1, -1⟩⟩, ⟨5, ⟨0, -1⟩⟩] := by
  have hstep : processFace exVerts exRef exTgt =
      processFace2 exVerts exRef exTgt
        ⟨0, 0, ⟨0, ⟨0, 0⟩⟩, 0, ⟨0, ⟨0, 0⟩⟩⟩ ⟨1, 1, ⟨1, ⟨1, 0⟩⟩, 1, ⟨1, ⟨0, 0⟩⟩⟩ := by
    rw [processFace.eq_def, exCVS]
  rw [hstep, processFace2.eq_def]
  rw [exRO]
  simp only [exTO]
  have hv : exVerts 0 = ⟨0, 0, 0⟩ := rfl
  have hv1 : exVerts 1 = ⟨1, 0, 0⟩ := rfl
  have hv2 : exVerts 2 = ⟨1, 1, 0⟩ := rfl
  have hv4 : exVerts 4 = ⟨1, -1, 0⟩ := rfl
  have hv5 : exVerts 5 = ⟨0, -1, 0⟩ := rfl
  simp only [hv, hv1, hv2, hv4, hv5]
  simp only [swapEval]
  norm_num [dps2Eval1, targetUVs, List.map, hv4, hv5, ctuvEval1, ctuvEval2]
  rfl



lemma setLoopEval1 : setLoop exVerts 0 (some 0) [1] [exRef, exTgt] 0 =
    (.ok (), [exRef, exTgt2], 1) := by
  rw [setLoop.eq_def]
  norm_num [pyGet]
  simp only [procEval]
  rw [setLoop.eq_def]
  rfl

lemma setExEval1 : setExecute exSc exProps 0 exVerts exBm =
    ⟨.ok (), [exRef, exTgt2], ⟨1, some 0⟩⟩ := by
  rw [setExecute.eq_def]
  norm_num [exBm, exSc, exProps]
  rw [show selFacesOf ⟨false, true⟩ ⟨[exRef, exTgt], true, []⟩ = .ok [1] from rfl]
  simp only [setLoopEval1]

lemma setLoopEval2 : setLoop exVerts 0 (some 0) [1, 1] [exRef, exTgt] 0 =
    (.error .sameFace, [exRef, exTgt2], 1) := by
  rw [setLoop.eq_def]
  norm_num [pyGet]
  simp only [procEval]
  rw [setLoop.eq_def]
  rfl

lemma setExEval2 : setExecute exSc2 exProps 0 exVerts exBm2 =
    ⟨.error .sameFace, [exRef, exTgt2], ⟨0, some 0⟩⟩ := by
  rw [setExecute.eq_def]
  norm_num [exBm2, exSc2, exProps]
  rw [show selFacesOf ⟨true, true⟩ ⟨[exRef, exTgt], true, [1, 1]⟩ = .ok [1, 1] from rfl]
  simp only [setLoopEval2]

lemma setExEval9 : setExecute exSc exProps9 0 exVerts exBm =
    ⟨.error .sameFace, [exRef, exTgt], exProps9⟩ := by
  rfl


lemma processFace_not2 (verts : Nat → Vec3) (rf tf : Face)
    (h : (commonVerts rf tf).length ≠ 2) :
    processFace verts rf tf = .error .sharedVertexCount := by
  rcases hc : commonVerts rf tf with _ | ⟨a, _ | ⟨b, _ | ⟨c, l⟩⟩⟩
  · rw [processFace.eq_def, hc]
  · rw [processFace.eq_def, hc]
  · exact absurd (by rw [hc] ; rfl) h
  · rw [processFace.eq_def, hc]

lemma setLoop_head_reject (verts : Nat → Vec3) (obj : Nat) (refObj : Option Nat)
    (tgt : Nat) (rest : List Nat) (faces : List Face) (refIdx : Int)
    (h1 : refIdx ≠ Int.ofNat tgt) (h2 : refObj = some obj) (rf tf : Face)
    (h3 : pyGet faces refIdx = some rf) (h4 : faces.get? tgt = some tf) (w : Warn)
    (h5 : processFace verts rf tf = .error w) :
    setLoop verts obj refObj (tgt :: rest) faces refIdx = (.error w, faces, refIdx) := by
  simp only [setLoop]
  rw [if_neg h1, if_neg (by simp [h2]), h3, h4]
  dsimp only
  rw [h5]

lemma setLoop_head_ok (verts : Nat → Vec3) (obj : Nat) (refObj : Option Nat)
    (tgt : Nat) (rest : List Nat) (faces : List Face) (refIdx : Int)
    (h1 : refIdx ≠ Int.ofNat tgt) (h2 : refObj = some obj) (rf tf : Face)
    (h3 : pyGet faces refIdx = some rf) (h4 : faces.get? tgt = some tf)
    (newLoops : List Loop) (h5 : processFace verts rf tf = .ok newLoops) :
    setLoop verts obj refObj (tgt :: rest) faces refIdx =
      setLoop verts obj refObj rest (faces.set tgt ⟨newLoops, tf.select⟩) (Int.ofNat tgt) := by
  simp only [setLoop]
  rw [if_neg h1, if_neg (by simp [h2]), h3, h4]
  dsimp only
  rw [h5]


lemma selFacesOf_ok_ne_nil (sc : SceneOpts) (bm : BMesh) (sel : List Nat)
    (h : selFacesOf sc bm = .ok sel) : sel ≠ [] := by
  rw [selFacesOf.eq_def] at h
  split at h
  · dsimp only at h
    split at h
    · exact absurd h (by simp)
    · next hne =>
      cases h
      intro hnil
      rw [hnil] at hne
      exact hne rfl
  · dsimp only at h
    split at h
    · next hlen =>
      cases h
      intro hnil
      rw [hnil] at hlen
      simp at hlen
    · exact absurd h (by simp)

lemma setExecute_props_cases (sc : SceneOpts) (props : Props) (obj : Nat)
    (verts : Nat → Vec3) (bm : BMesh) :
    (setExecute sc props obj verts bm).props = props ∨
      ((setExecute sc props obj verts bm).res = .ok () ∧ sc.set_and_refer = true ∧
        (setExecute sc props obj verts bm).props.ref_obj = props.ref_obj) := by
  rw [setExecute.eq_def]
  split
  · exact Or.inl rfl
  · split
    · exact Or.inl rfl
    · split
      · exact Or.inl rfl
      · split
        · next hsar => exact Or.inr ⟨rfl, hsar, rfl⟩
        · exact Or.inl rfl


/-- C2: when a (reference, target) pair reached by the Set loop does not
share exactly 2 vertices, the loop stops with the warning
"2 vertices must be shared among faces" and result CANCELLED (the error
outcome), and returns the face list exactly as it received it — no UVs
are written for that face and the pair is never silently processed. -/
theorem c2_shared_vertex_count_rejected (verts : Nat → Vec3) (obj : Nat)
    (refObj : Option Nat) (tgt : Nat) (rest : List Nat) (faces : List Face)
    (refIdx : Int) (rf tf : Face)
    (h1 : refIdx ≠ Int.ofNat tgt) (h2 : refObj = some obj)
    (h3 : pyGet faces refIdx = some rf) (h4 : faces.get? tgt = some tf)
    (h5 : (commonVerts rf tf).length ≠ 2) :
    setLoop verts obj refObj (tgt :: rest) faces refIdx =
      (.error .sharedVertexCount, faces, refIdx) ∧
    warnMsg .sharedVertexCount = "2 vertices must be shared among faces" :=
  ⟨setLoop_head_reject verts obj refObj tgt rest faces refIdx h1 h2 rf tf h3 h4 _
    (processFace_not2 verts rf tf h5), rfl⟩

/-- Witness for C2: two triangles sharing exactly one vertex. -/
theorem c2_witness :
    setLoop exVerts 0 (some 0) [1] [triRef, triTgt] 0 =
      (.error .sharedVertexCount, [triRef, triTgt], 0) ∧
    warnMsg .sharedVertexCount = "2 vertices must be shared among faces" :=
  c2_shared_vertex_count_rejected exVerts 0 (some 0) 1 [] [triRef, triTgt] 0 triRef triTgt
    (by decide) rfl rfl rfl (by decide)

/-- C3 amended: `ref_obj` is never mutated by the Set operation, and
`ref_face_index` is left unchanged except possibly when the set-and-refer
option is enabled and the invocation finishes successfully (lines
283-284); Refer remains the only mutator otherwise. -/
theorem c3_amended_set_state (sc : SceneOpts) (props : Props) (obj : Nat)
    (verts : Nat → Vec3) (bm : BMesh) :
    (setExecute sc props obj verts bm).props.ref_obj = props.ref_obj ∧
    ((setExecute sc props obj verts bm).props.ref_face_index = props.ref_face_index ∨
      (sc.set_and_refer = true ∧ (setExecute sc props obj verts bm).res = .ok ())) := by
  rcases setExecute_props_cases sc props obj verts bm with h | ⟨hres, hsar, hobj⟩
  · rw [h]
    exact ⟨rfl, Or.inl rfl⟩
  · exact ⟨hobj, Or.inr ⟨hsar, hres⟩⟩

/-- C3 is false as stated: a successful single-face Set run with
set-and-refer enabled (its default) mutates `props.ref_face_index` from 0
to 1 in the two-square scenario. -/
theorem c3_counterexample :
    (setExecute exSc exProps 0 exVerts exBm).props.ref_face_index = 1 ∧
    exProps.ref_face_index = 0 ∧ (1 : Int) ≠ 0 := by
  rw [setExEval1]
  exact ⟨rfl, rfl, by decide⟩

/-- C6 amended: every Set invocation that terminates with an error —
in particular a sequence run that terminates early because a later
element errored — leaves the persisted state unchanged; the last
successfully processed target becomes the reference only when the whole
sequence completes. -/
theorem c6_amended_props_on_error (sc : SceneOpts) (props : Props) (obj : Nat)
    (verts : Nat → Vec3) (bm : BMesh) (w : Warn)
    (h : (setExecute sc props obj verts bm).res = .error w) :
    (setExecute sc props obj verts bm).props = props := by
  rcases setExecute_props_cases sc props obj verts bm with h1 | ⟨h2, _, _⟩
  · exact h1
  · rw [h] at h2
    exact absurd h2 (by simp)

/-- Witness for the amended C6: a mesh without a UV layer errors and the
state is unchanged. -/
theorem c6_amended_witness :
    (setExecute exSc exProps 0 exVerts bmNoUV).props = exProps :=
  c6_amended_props_on_error exSc exProps 0 exVerts bmNoUV .noUVLayer rfl

/-- C6 is false as stated: in sequence mode with set-and-refer enabled,
history [1, 1] processes face 1 successfully and then errors on the
identical-face check; the operation returns CANCELLED and
`props.ref_face_index` keeps its old value 0 instead of becoming the last
successfully processed face 1. -/
theorem c6_counterexample :
    (setExecute exSc2 exProps 0 exVerts exBm2).res = .error .sameFace ∧
    (setExecute exSc2 exProps 0 exVerts exBm2).props.ref_face_index = 0 ∧
    (0 : Int) ≠ 1 := by
  rw [setExEval2]
  exact ⟨rfl, rfl, by decide⟩

/-- C10: every failing Refer execution (no UV layer, or the number of
selected faces is not exactly 1) returns CANCELLED and returns the
persisted state exactly as it was — the state is written only on
success. -/
theorem c10_refer_failure_atomic (props : Props) (obj : Nat) (bm : BMesh)
    (h : bm.has_uv = false ∨ (selectedIdxs bm.faces).length ≠ 1) :
    (∃ w, (refExecute props obj bm).1 = .error w) ∧ (refExecute props obj bm).2 = props := by
  rw [refExecute.eq_def]
  rcases h with h | h
  · rw [if_pos h]
    exact ⟨⟨.noUVLayer, rfl⟩, rfl⟩
  · split
    · exact ⟨⟨.noUVLayer, rfl⟩, rfl⟩
    · rcases hsel : selectedIdxs bm.faces with _ | ⟨a, _ | ⟨b, l⟩⟩
      · exact ⟨⟨.selectOnlyOne, rfl⟩, rfl⟩
      · rw [hsel] at h
        simp at h
      · exact ⟨⟨.selectOnlyOne, rfl⟩, rfl⟩

/-- Witness for C10: Refer on a mesh without a UV layer. -/
theorem c10_witness :
    (∃ w, (refExecute exProps 0 bmNoUV).1 = .error w) ∧
    (refExecute exProps 0 bmNoUV).2 = exProps :=
  c10_refer_failure_atomic exProps 0 bmNoUV (Or.inl rfl)


/-- C8: one step of the Set loop projects the head target against the
face looked up at the current reference index and continues on the
remaining targets with the just-processed target as the new reference
index — each step output becomes the next step reference.  `setExecute`
starts this loop at the caller-supplied `props.ref_face_index`, so the
first target is projected against the persisted reference face. -/
theorem c8_chain_propagation (verts : Nat → Vec3) (obj : Nat) (refObj : Option Nat)
    (tgt : Nat) (rest : List Nat) (faces : List Face) (refIdx : Int) (rf tf : Face)
    (newLoops : List Loop)
    (h1 : refIdx ≠ Int.ofNat tgt) (h2 : refObj = some obj)
    (h3 : pyGet faces refIdx = some rf) (h4 : faces.get? tgt = some tf)
    (h5 : processFace verts rf tf = .ok newLoops) :
    setLoop verts obj refObj (tgt :: rest) faces refIdx =
      setLoop verts obj refObj rest (faces.set tgt ⟨newLoops, tf.select⟩) (Int.ofNat tgt) := by
  simp only [setLoop]
  rw [if_neg h1, if_neg (by simp [h2]), h3, h4]
  dsimp only
  rw [h5]

/-- Witness for C8: the two-square scenario, chain of length one. -/
theorem c8_witness :
    setLoop exVerts 0 (some 0) [1] [exRef, exTgt] 0 =
      setLoop exVerts 0 (some 0) []
        ([exRef, exTgt].set 1 ⟨[⟨0, ⟨0, 0⟩⟩, ⟨1, ⟨1, 0⟩⟩, ⟨4, ⟨1, -1⟩⟩, ⟨5, ⟨0, -1⟩⟩],
          exTgt.select⟩) (Int.ofNat 1) :=
  c8_chain_propagation exVerts 0 (some 0) 1 [] [exRef, exTgt] 0 exRef exTgt _
    (by decide) rfl rfl rfl procEval

/-- C9 amended: when the persisted reference object differs from the
edited object and the UV-layer and selection checks pass, the Set
operation always fails and leaves the face list and persisted state
unchanged — propagation never crosses objects; the warning is
"Object must be same" except when the reference index equals the first
target index, where "Must select different face" is reported first. -/
theorem c9_amended_cross_object (sc : SceneOpts) (props : Props) (obj : Nat)
    (verts : Nat → Vec3) (bm : BMesh) (sel : List Nat)
    (h : props.ref_obj ≠ some obj) (hu : bm.has_uv = true)
    (hsel : selFacesOf sc bm = .ok sel) :
    ((setExecute sc props obj verts bm).res = .error .objectMismatch ∨
      (setExecute sc props obj verts bm).res = .error .sameFace) ∧
    (setExecute sc props obj verts bm).faces = bm.faces ∧
    (setExecute sc props obj verts bm).props = props ∧
    (props.ref_face_index ≠ Int.ofNat (sel.headD 0) →
      (setExecute sc props obj verts bm).res = .error .objectMismatch) := by
  have hne := selFacesOf_ok_ne_nil sc bm sel hsel
  rcases sel with _ | ⟨t, rest⟩
  · exact absurd rfl hne
  · rw [setExecute.eq_def, if_neg (by rw [hu] ; simp), hsel]
    dsimp only
    by_cases hidx : props.ref_face_index = Int.ofNat t
    · have hsl : setLoop verts obj props.ref_obj (t :: rest) bm.faces props.ref_face_index =
          (.error .sameFace, bm.faces, props.ref_face_index) := by
        simp only [setLoop]
        rw [if_pos hidx]
      rw [hsl]
      exact ⟨Or.inr rfl, rfl, rfl, fun hcon => absurd hidx hcon⟩
    · have hsl : setLoop verts obj props.ref_obj (t :: rest) bm.faces props.ref_face_index =
          (.error .objectMismatch, bm.faces, props.ref_face_index) := by
        simp only [setLoop]
        rw [if_neg hidx, if_pos h]
      rw [hsl]
      exact ⟨Or.inl rfl, rfl, rfl, fun _ => rfl⟩

/-- Witness for the amended C9: reference captured on object 1, editing
object 0, distinct face indices. -/
theorem c9_amended_witness :
    ((setExecute exSc exProps9b 0 exVerts exBm).res = .error .objectMismatch ∨
      (setExecute exSc exProps9b 0 exVerts exBm).res = .error .sameFace) ∧
    (setExecute exSc exProps9b 0 exVerts exBm).faces = exBm.faces ∧
    (setExecute exSc exProps9b 0 exVerts exBm).props = exProps9b :=
  let h := c9_amended_cross_object exSc exProps9b 0 exVerts exBm [1] (by decide) rfl rfl
  ⟨h.1, h.2.1, h.2.2.1⟩

/-- C9 is false as stated: with the reference captured on object 1 while
editing object 0 and `ref_face_index` equal to the index of the selected
target, Set cancels with "Must select different face" (the identical-face
check at lines 173-175 precedes the object check at lines 177-179), not
with the cross-object warning "Object must be same". -/
theorem c9_counterexample :
    exProps9.ref_obj ≠ some 0 ∧
    (setExecute exSc exProps9 0 exVerts exBm).res = .error .sameFace ∧
    Warn.sameFace ≠ Warn.objectMismatch ∧
    warnMsg Warn.sameFace ≠ warnMsg Warn.objectMismatch :=
  ⟨by decide, by rw [setExEval9], by decide, by decide⟩

/-- C7 amended: validation errors detected before any face is processed
— no UV layer, wrong selection cardinality, or a cross-object mismatch
(caught by the per-iteration check on the very first iteration, before
any write) — abort the Set operation with a warning and leave the face
list entirely unmodified.  (The identical-face error can instead fire on
a later chain element, after earlier writes are committed; see the
counterexample.) -/
theorem c7_amended_validation (sc : SceneOpts) (props : Props) (obj : Nat)
    (verts : Nat → Vec3) (bm : BMesh)
    (h : bm.has_uv = false ∨ (∃ w, selFacesOf sc bm = .error w) ∨
      props.ref_obj ≠ some obj) :
    (∃ w, (setExecute sc props obj verts bm).res = .error w) ∧
    (setExecute sc props obj verts bm).faces = bm.faces := by
  rcases h with h | ⟨w, hw⟩ | h
  · rw [setExecute.eq_def, if_pos h]
    exact ⟨⟨.noUVLayer, rfl⟩, rfl⟩
  · rw [setExecute.eq_def]
    split
    · exact ⟨⟨.noUVLayer, rfl⟩, rfl⟩
    · rw [hw]
      exact ⟨⟨w, rfl⟩, rfl⟩
  · rw [setExecute.eq_def]
    split
    · exact ⟨⟨.noUVLayer, rfl⟩, rfl⟩
    · rcases hsel2 : selFacesOf sc bm with w2 | sel
      · exact ⟨⟨w2, rfl⟩, rfl⟩
      · dsimp only
        have hne := selFacesOf_ok_ne_nil sc bm sel hsel2
        rcases sel with _ | ⟨t, rest⟩
        · exact absurd rfl hne
        · by_cases hidx : props.ref_face_index = Int.ofNat t
          · have hsl : setLoop verts obj props.ref_obj (t :: rest) bm.faces
                props.ref_face_index =
                (.error .sameFace, bm.faces, props.ref_face_index) := by
              simp only [setLoop]
              rw [if_pos hidx]
            rw [hsl]
            exact ⟨⟨.sameFace, rfl⟩, rfl⟩
          · have hsl : setLoop verts obj props.ref_obj (t :: rest) bm.faces
                props.ref_face_index =
                (.error .objectMismatch, bm.faces, props.ref_face_index) := by
              simp only [setLoop]
              rw [if_neg hidx, if_pos h]
            rw [hsl]
            exact ⟨⟨.objectMismatch, rfl⟩, rfl⟩

/-- Witness for the amended C7: no UV layer. -/
theorem c7_amended_witness :
    (∃ w, (setExecute exSc exProps 0 exVerts bmNoUV).res = .error w) ∧
    (setExecute exSc exProps 0 exVerts bmNoUV).faces = bmNoUV.faces :=
  c7_amended_validation exSc exProps 0 exVerts bmNoUV (Or.inl rfl)

/-- C7 is false as stated: the identical-face validation error detected
on the second element of a selection-sequence chain aborts the operation,
but the UVs written for the first element remain — the mesh is not left
unmodified by that invocation. -/
theorem c7_counterexample :
    (setExecute exSc2 exProps 0 exVerts exBm2).res = .error .sameFace ∧
    warnMsg .sameFace = "Must select different face" ∧
    (setExecute exSc2 exProps 0 exVerts exBm2).faces ≠ exBm2.faces := by
  rw [setExEval2]
  refine ⟨rfl, rfl, ?_⟩
  intro hfaces
  have h5 := congrArg
    (fun fs => ((fs.get? 1).map (fun f => (f.loops.get? 2).map (fun l => l.uv.v)))) hfaces
  norm_num [exTgt2, exTgt, exRef, exBm2] at h5

/-- C4: if the initially chosen ordering of the shared-edge endpoints
yields a zero-length `ref_hdiff` or `ref_vdiff`, `swapGuard` swaps the
endpoints together with their UVs and recomputes the decomposition;
whenever at least one of the two orderings yields non-zero `ref_hdiff`
and `ref_vdiff`, the frame used for the subsequent divisions has
non-zero `hdiff` and `vdiff` lengths. -/
theorem c4_degenerate_swap (cv0 cv1 : Vec3) (cuv0 cuv1 : Vec2) (ov0 : Vec3)
    (h : ((diff_point_to_segment3 cv0 cv1 ov0).1.length ≠ 0 ∧
          ((diff_point_to_segment3 cv0 cv1 ov0).2 - cv0).length ≠ 0) ∨
         ((diff_point_to_segment3 cv1 cv0 ov0).1.length ≠ 0 ∧
          ((diff_point_to_segment3 cv1 cv0 ov0).2 - cv1).length ≠ 0)) :
    (swapGuard cv0 cv1 cuv0 cuv1 ov0).hdiff.length ≠ 0 ∧
    (swapGuard cv0 cv1 cuv0 cuv1 ov0).vdiff.length ≠ 0 ∧
    (((diff_point_to_segment3 cv0 cv1 ov0).1.length = 0 ∨
      ((diff_point_to_segment3 cv0 cv1 ov0).2 - cv0).length = 0) →
      (swapGuard cv0 cv1 cuv0 cuv1 ov0).cv0 = cv1 ∧
      (swapGuard cv0 cv1 cuv0 cuv1 ov0).cuv0 = cuv1 ∧
      (swapGuard cv0 cv1 cuv0 cuv1 ov0).cv1 = cv0 ∧
      (swapGuard cv0 cv1 cuv0 cuv1 ov0).cuv1 = cuv0) := by
  rw [swapGuard.eq_def]
  dsimp only
  split
  · next hcond =>
    rcases h with ⟨h1, h2⟩ | ⟨h1, h2⟩
    · rcases hcond with hc | hc
      · exact absurd hc h1
      · exact absurd hc h2
    · exact ⟨h1, h2, fun hp => ⟨rfl, rfl, rfl, rfl⟩⟩
  · next hcond =>
    push_neg at hcond
    exact ⟨hcond.1, hcond.2, fun hp => absurd hp (by push_neg ; exact hcond)⟩

/-- Witness for C4: the unit-square reference geometry, where the first
ordering already has both components of length 1. -/
theorem c4_witness :
    (swapGuard ⟨0, 0, 0⟩ ⟨1, 0, 0⟩ ⟨0, 0⟩ ⟨1, 0⟩ ⟨1, 1, 0⟩).hdiff.length ≠ 0 ∧
    (swapGuard ⟨0, 0, 0⟩ ⟨1, 0, 0⟩ ⟨0, 0⟩ ⟨1, 0⟩ ⟨1, 1, 0⟩).vdiff.length ≠ 0 :=
  let h := c4_degenerate_swap ⟨0, 0, 0⟩ ⟨1, 0, 0⟩ ⟨0, 0⟩ ⟨1, 0⟩ ⟨1, 1, 0⟩
    (Or.inl ⟨by rw [dps3Eval1, len3Eval1] ; norm_num,
             by rw [dps3Eval1] ; norm_num [len3Eval2]⟩)
  ⟨h.1, h.2.1⟩


lemma smul_dot_smul (s : ℝ) (e : Vec3) : (s • e : Vec3).dot (s • e : Vec3) = s * ((s • e : Vec3).dot e) := by
  simp only [vec3_smul, Vec3.dot]
  ring

lemma smul_dot (s : ℝ) (e : Vec3) : (s • e : Vec3).dot e = s * e.dot e := by
  simp only [vec3_smul, Vec3.dot]
  ring

lemma copysign1_eq_signZ {x : ℝ} (h : x ≠ 0) : copysign1 x = signZ x := by
  simp [copysign1, signZ, h]

lemma factor_eq (e : Vec3) (s t : ℝ) :
    (s • e : Vec3).length / (t • e : Vec3).length * copysign1 ((s • e : Vec3).dot e)
      * copysign1 ((t • e : Vec3).dot e)
    = (s • e : Vec3).length / (t • e : Vec3).length * signZ ((s • e : Vec3).dot e)
      * signZ ((t • e : Vec3).dot e) := by
  by_cases hs : (s • e : Vec3).dot e = 0
  · have hlen : (s • e : Vec3).length = 0 := by
      rw [Vec3.length, smul_dot_smul, hs, mul_zero, Real.sqrt_zero]
    rw [hlen]
    simp [signZ, hs]
  · by_cases ht : (t • e : Vec3).dot e = 0
    · have hlen : (t • e : Vec3).length = 0 := by
        rw [Vec3.length, smul_dot_smul, ht, mul_zero, Real.sqrt_zero]
      rw [hlen]
      simp [signZ, ht]
    · rw [copysign1_eq_signZ hs, copysign1_eq_signZ ht]

lemma dps3_snd_sub (a b p : Vec3) :
    (diff_point_to_segment3 a b p).2 - a
      = ((p - a).dot (b - a) / (b - a).dot (b - a)) • (b - a) := by
  simp only [diff_point_to_segment3, vec3_sub, vec3_add, vec3_smul, Vec3.mk.injEq]
  refine ⟨by ring, by ring, by ring⟩

/-- At its call site in `processFace2`, the `vdiff` of the frame is
always parallel to the edge vector `cv1 - cv0` of the frame: it is
produced by projecting onto that edge. -/
lemma swapGuard_vdiff_parallel (cv0 cv1 : Vec3) (cuv0 cuv1 : Vec2) (ov0 : Vec3) :
    ∃ s : ℝ, (swapGuard cv0 cv1 cuv0 cuv1 ov0).vdiff =
      s • ((swapGuard cv0 cv1 cuv0 cuv1 ov0).cv1 - (swapGuard cv0 cv1 cuv0 cuv1 ov0).cv0) := by
  rw [swapGuard.eq_def]
  dsimp only
  split
  · exact ⟨_, dps3_snd_sub cv1 cv0 ov0⟩
  · exact ⟨_, dps3_snd_sub cv0 cv1 ov0⟩

/-- C5: the UV computed for a non-shared target vertex equals
`Auv + UVhdiff * factH + UVvdiff * factV` with
`factV = (|tgt_vdiff| / |vdiff|) * sign(tgt_vdiff . (B-A)) * sign(vdiff . (B-A))`
and `factH = -(|tgt_hdiff| / |hdiff|)`, where `sign` returns -1, 0, or +1
(in particular `signZ 0 = 0`).  The code computes the sign factors with
`math.copysign(1, _)`, which maps 0 to +1, but under the hypothesis that
`vdiff` is parallel to `B - A` — always true at the call site, see
`swapGuard_vdiff_parallel` — a zero dot product forces the corresponding
vector, hence the whole factor, to be zero, so the computed UV agrees
exactly with the formula of the spec. -/
theorem c5_target_uv_formula (cv0 cv1 : Vec3) (cuv0 : Vec2) (rvd rhd : Vec3)
    (ruvh ruvv : Vec2) (ov : Vec3) (t : ℝ) (h : rvd = t • (cv1 - cv0)) :
    computeTargetUV cv0 cv1 cuv0 rvd rhd ruvh ruvv ov =
      specTargetUV cv0 cv1 cuv0 rvd rhd ruvh ruvv ov ∧ signZ 0 = 0 := by
  refine ⟨?_, by simp [signZ]⟩
  rw [computeTargetUV, specTargetUV, specFactH, specFactV]
  rw [neg_div]
  rw [dps3_snd_sub cv0 cv1 ov, h, factor_eq]

/-- Witness for C5: the unit-square frame with parallelism factor 1. -/
theorem c5_witness :
    computeTargetUV ⟨0, 0, 0⟩ ⟨1, 0, 0⟩ ⟨0, 0⟩ ⟨1, 0, 0⟩ ⟨0, 1, 0⟩ ⟨0, 1⟩ ⟨1, 0⟩ ⟨1, -1, 0⟩ =
      specTargetUV ⟨0, 0, 0⟩ ⟨1, 0, 0⟩ ⟨0, 0⟩ ⟨1, 0, 0⟩ ⟨0, 1, 0⟩ ⟨0, 1⟩ ⟨1, 0⟩ ⟨1, -1, 0⟩ ∧
    signZ 0 = 0 :=
  c5_target_uv_formula ⟨0, 0, 0⟩ ⟨1, 0, 0⟩ ⟨0, 0⟩ ⟨1, 0, 0⟩ ⟨0, 1, 0⟩ ⟨0, 1⟩ ⟨1, 0⟩ ⟨1, -1, 0⟩ 1
    (by norm_num)


lemma setUV_get_self (ls : List Loop) (i : Nat) (uv : Vec2) (l : Loop)
    (h : ls.get? i = some l) : (setUV ls i uv).get? i = some ⟨l.vert, uv⟩ := by
  induction ls generalizing i with
  | nil => simp at h
  | cons a as ih =>
    cases i with
    | zero =>
      simp only [List.get?] at h
      injection h with h
      subst h
      rfl
    | succ n =>
      simp only [List.get?] at h
      simp only [setUV, List.get?]
      exact ih n h

lemma setUV_get_ne (ls : List Loop) (i j : Nat) (uv : Vec2) (h : j ≠ i) :
    (setUV ls i uv).get? j = ls.get? j := by
  induction ls generalizing i j with
  | nil => cases i <;> rfl
  | cons a as ih =>
    cases i with
    | zero =>
      cases j with
      | zero => exact absurd rfl h
      | succ m => rfl
    | succ n =>
      cases j with
      | zero => rfl
      | succ m =>
        simp only [setUV, List.get?]
        exact ih n m (fun he => h (by rw [he]))

lemma findLoop_some (tl : List Loop) (v : Nat) (j k : Nat) (dl : Loop)
    (h : findLoop tl v j = some (k, dl)) :
    j ≤ k ∧ tl.get? (k - j) = some dl ∧ dl.vert = v := by
  induction tl generalizing j with
  | nil => simp [findLoop] at h
  | cons a as ih =>
    rw [findLoop] at h
    split at h
    · next heq =>
      injection h with h
      injection h with h1 h2
      subst h1
      subst h2
      exact ⟨le_refl j, by simp, heq⟩
    · next hne =>
      obtain ⟨h1, h2, h3⟩ := ih (j + 1) h
      refine ⟨by omega, ?_, h3⟩
      have hk : k - j = (k - (j + 1)) + 1 := by omega
      rw [hk]
      simpa using h2

lemma commonVertsAux_mem (tl sls : List Loop) (i : Nat) (ci : CVInfo)
    (h : ci ∈ commonVertsAux tl sls i) :
    i ≤ ci.refLi ∧ sls.get? (ci.refLi - i) = some ci.refLoop ∧
    tl.get? ci.tgtLi = some ci.tgtLoop ∧ ci.tgtLoop.vert = ci.vert ∧
    ci.refLoop.vert = ci.vert := by
  induction sls generalizing i with
  | nil => simp [commonVertsAux] at h
  | cons sl rest ih =>
    rw [commonVertsAux] at h
    cases hf : findLoop tl sl.vert 0 with
    | some jd =>
      rw [hf] at h
      rcases List.mem_cons.mp h with hc | hc
      · subst hc
        obtain ⟨k, dl⟩ := jd
        obtain ⟨_, h2, h3⟩ := findLoop_some tl sl.vert 0 k dl hf
        refine ⟨le_refl i, by simp, by simpa using h2, h3, rfl⟩
      · obtain ⟨h1, h2, h3, h4, h5⟩ := ih (i + 1) hc
        refine ⟨by omega, ?_, h3, h4, h5⟩
        have hk : ci.refLi - i = (ci.refLi - (i + 1)) + 1 := by omega
        rw [hk]
        simpa using h2
    | none =>
      rw [hf] at h
      obtain ⟨h1, h2, h3, h4, h5⟩ := ih (i + 1) h
      refine ⟨by omega, ?_, h3, h4, h5⟩
      have hk : ci.refLi - i = (ci.refLi - (i + 1)) + 1 := by omega
      rw [hk]
      simpa using h2

lemma commonVerts_mem (rf tf : Face) (ci : CVInfo) (h : ci ∈ commonVerts rf tf) :
    rf.loops.get? ci.refLi = some ci.refLoop ∧
    tf.loops.get? ci.tgtLi = some ci.tgtLoop ∧
    ci.tgtLoop.vert = ci.vert ∧ ci.refLoop.vert = ci.vert := by
  obtain ⟨_, h2, h3, h4, h5⟩ := commonVertsAux_mem tf.loops rf.loops 0 ci h
  exact ⟨by simpa using h2, h3, h4, h5⟩

lemma otherVertsAux_mem (cvs : List CVInfo) (ls : List Loop) (i j : Nat) (l : Loop)
    (h : (j, l) ∈ otherVertsAux cvs ls i) :
    i ≤ j ∧ ls.get? (j - i) = some l ∧ ∀ ci ∈ cvs, ci.vert ≠ l.vert := by
  induction ls generalizing i with
  | nil => simp [otherVertsAux] at h
  | cons a as ih =>
    rw [otherVertsAux] at h
    split at h
    · obtain ⟨h1, h2, h3⟩ := ih (i + 1) h
      refine ⟨by omega, ?_, h3⟩
      have hk : j - i = (j - (i + 1)) + 1 := by omega
      rw [hk]
      simpa using h2
    · next hany =>
      rcases List.mem_cons.mp h with hc | hc
      · injection hc with h1 h2
        subst h1
        subst h2
        refine ⟨le_refl _, by simp, ?_⟩
        intro ci hci heq
        exact hany (List.any_eq_true.mpr ⟨ci, hci, by simpa using heq⟩)
      · obtain ⟨h1, h2, h3⟩ := ih (i + 1) hc
        refine ⟨by omega, ?_, h3⟩
        have hk : j - i = (j - (i + 1)) + 1 := by omega
        rw [hk]
        simpa using h2

lemma applyTargets_get_of_not_mem (ls : List Loop) (ts : List (Nat × Vec2)) (j : Nat)
    (h : ∀ t ∈ ts, t.1 ≠ j) :
    (applyTargets ls ts).get? j = ls.get? j := by
  induction ts generalizing ls with
  | nil => rfl
  | cons t ts ih =>
    rw [applyTargets]
    rw [ih (setUV ls t.1 t.2) (fun t2 ht2 => h t2 (List.mem_cons_of_mem _ ht2))]
    exact setUV_get_ne ls t.1 j t.2 (fun he => h t (List.mem_cons_self _ _) he.symm)


lemma applyTargets_targetUVs_get (ls : List Loop) (verts : Nat → Vec3) (frame : RefFrame)
    (ruvh ruvv : Vec2) (tos : List (Nat × Loop)) (j : Nat)
    (h : ∀ p ∈ tos, p.1 ≠ j) :
    (applyTargets ls (targetUVs verts frame ruvh ruvv tos)).get? j = ls.get? j := by
  apply applyTargets_get_of_not_mem
  intro t ht
  obtain ⟨p, hp, rfl⟩ := List.mem_map.mp ht
  exact h p hp

/-- C1: for a successful projection, the loop list written for the
target face holds, at each of the two shared-vertex loop positions, a
loop whose UV is exactly the copied UV of the corresponding
reference-face loop (and those reference loops are genuinely the loops of
the reference face at the recorded positions).  The hypothesis that the
two shared target loop positions differ holds in any mesh whose faces do
not repeat vertices. -/
theorem c1_shared_uv_verbatim (verts : Nat → Vec3) (rf tf : Face) (newLoops : List Loop)
    (c0 c1 : CVInfo)
    (hcv : commonVerts rf tf = [c0, c1])
    (hne : c0.tgtLi ≠ c1.tgtLi)
    (hok : processFace verts rf tf = .ok newLoops) :
    (∃ l0, newLoops.get? c0.tgtLi = some l0 ∧ l0.uv = c0.refLoop.uv) ∧
    (∃ l1, newLoops.get? c1.tgtLi = some l1 ∧ l1.uv = c1.refLoop.uv) ∧
    rf.loops.get? c0.refLi = some c0.refLoop ∧
    rf.loops.get? c1.refLi = some c1.refLoop := by
  have hm0 : c0 ∈ commonVerts rf tf := by
    rw [hcv]
    exact List.mem_cons_self _ _
  have hm1 : c1 ∈ commonVerts rf tf := by
    rw [hcv]
    simp
  obtain ⟨hr0, ht0, htv0, hrv0⟩ := commonVerts_mem rf tf c0 hm0
  obtain ⟨hr1, ht1, htv1, hrv1⟩ := commonVerts_mem rf tf c1 hm1
  rw [processFace.eq_def, hcv] at hok
  dsimp only at hok
  rw [processFace2.eq_def] at hok
  cases hro : otherVerts rf.loops [c0, c1] with
  | nil =>
    rw [hro] at hok
    exact absurd hok (by simp)
  | cons ro rtl =>
    rw [hro] at hok
    cases hto : otherVerts tf.loops [c0, c1] with
    | nil =>
      rw [hto] at hok
      exact absurd hok (by simp)
    | cons to0 ttl =>
      rw [hto] at hok
      injection hok with hnl
      subst hnl
      have hnm : ∀ p ∈ (to0 :: ttl), p.1 ≠ c0.tgtLi ∧ p.1 ≠ c1.tgtLi := by
        intro p hp
        have hp2 : (p.1, p.2) ∈ otherVerts tf.loops [c0, c1] := by
          rw [hto]
          simpa using hp
        obtain ⟨_, hg, hall⟩ := otherVertsAux_mem [c0, c1] tf.loops 0 p.1 p.2 hp2
        rw [Nat.sub_zero] at hg
        constructor
        · intro he
          rw [he, ht0] at hg
          injection hg with hg
          exact hall c0 (by simp) (by rw [← hg] ; exact htv0.symm)
        · intro he
          rw [he, ht1] at hg
          injection hg with hg
          exact hall c1 (by simp) (by rw [← hg] ; exact htv1.symm)
      have key0 : ∀ p ∈ (to0 :: ttl), p.1 ≠ c0.tgtLi := fun p hp => (hnm p hp).1
      have key1 : ∀ p ∈ (to0 :: ttl), p.1 ≠ c1.tgtLi := fun p hp => (hnm p hp).2
      have hac0 : (applyCommon tf.loops [c0, c1]).get? c0.tgtLi =
          some ⟨c0.tgtLoop.vert, c0.refLoop.uv⟩ := by
        simp only [applyCommon]
        rw [setUV_get_ne _ _ _ _ hne]
        exact setUV_get_self tf.loops c0.tgtLi c0.refLoop.uv c0.tgtLoop ht0
      have hac1 : (applyCommon tf.loops [c0, c1]).get? c1.tgtLi =
          some ⟨c1.tgtLoop.vert, c1.refLoop.uv⟩ := by
        simp only [applyCommon]
        have hpre : (setUV tf.loops c0.tgtLi c0.refLoop.uv).get? c1.tgtLi =
            some c1.tgtLoop := by
          rw [setUV_get_ne _ _ _ _ (fun he => hne he.symm)]
          exact ht1
        exact setUV_get_self _ c1.tgtLi c1.refLoop.uv c1.tgtLoop hpre
      refine ⟨⟨⟨c0.tgtLoop.vert, c0.refLoop.uv⟩, ?_, rfl⟩,
        ⟨⟨c1.tgtLoop.vert, c1.refLoop.uv⟩, ?_, rfl⟩, hr0, hr1⟩
      · rw [applyTargets_targetUVs_get _ _ _ _ _ _ _ key0, hac0]
      · rw [applyTargets_targetUVs_get _ _ _ _ _ _ _ key1, hac1]


/-- Witness for C1: the two-square scenario; both shared loops of the
projected face carry the reference UVs (0,0) and (1,0). -/
theorem c1_witness :
    (∃ l0, ([⟨0, ⟨0, 0⟩⟩, ⟨1, ⟨1, 0⟩⟩, ⟨4, ⟨1, -1⟩⟩, ⟨5, ⟨0, -1⟩⟩] : List Loop).get? 0 =
        some l0 ∧ l0.uv = ⟨0, 0⟩) ∧
    (∃ l1, ([⟨0, ⟨0, 0⟩⟩, ⟨1, ⟨1, 0⟩⟩, ⟨4, ⟨1, -1⟩⟩, ⟨5, ⟨0, -1⟩⟩] : List Loop).get? 1 =
        some l1 ∧ l1.uv = ⟨1, 0⟩) ∧
    exRef.loops.get? 0 = some ⟨0, ⟨0, 0⟩⟩ ∧
    exRef.loops.get? 1 = some ⟨1, ⟨1, 0⟩⟩ :=
  c1_shared_uv_verbatim exVerts exRef exTgt
    [⟨0, ⟨0, 0⟩⟩, ⟨1, ⟨1, 0⟩⟩, ⟨4, ⟨1, -1⟩⟩, ⟨5, ⟨0, -1⟩⟩]
    ⟨0, 0, ⟨0, ⟨0, 0⟩⟩, 0, ⟨0, ⟨0, 0⟩⟩⟩ ⟨1, 1, ⟨1, ⟨1, 0⟩⟩, 1, ⟨1, ⟨0, 0⟩⟩⟩
    exCVS (by decide) procEval

end TextureWrap
